import Mathlib

-- Verification development for the plugin manager of the Capture_Push
-- repository (src/core/plugins/plugin_manager.py).  The Python code is
-- shallowly embedded: JSON documents become the inductive `Json`, the
-- manager's in-memory/on-disk caches become an explicit `PMState`, the
-- network becomes an oracle `Net : String -> NetOutcome`, and Python
-- exceptions that the source catches are collapsed to the value the
-- corresponding `except` handler returns.  Line numbers in comments refer
-- to src/core/plugins/plugin_manager.py.
--
-- String primitives are implemented over `List Char` so that every
-- definition evaluates by kernel reduction on concrete inputs.

set_option maxRecDepth 8192

-- ---------------------------------------------------------------------------
-- String primitives (Python semantics, over character lists)
-- ---------------------------------------------------------------------------

/-- Python `s.replace(c, d)` for single-character needles. -/
def replaceChar (c d : Char) (s : String) : String :=
  String.mk (s.toList.map (fun x => if x = c then d else x))

def splitCharGo (c : Char) : List Char → List Char → List String
  | [], acc => [String.mk acc.reverse]
  | x :: rest, acc =>
      if x = c then String.mk acc.reverse :: splitCharGo c rest []
      else splitCharGo c rest (x :: acc)

/-- Python `s.split(c)` for a single-character separator: `""` yields `[""]`,
adjacent separators yield empty segments. -/
def splitChar (c : Char) (s : String) : List String :=
  splitCharGo c s.toList []

/-- Python `needle in hay` (substring containment). -/
def strContains (hay needle : String) : Bool :=
  (List.range (hay.toList.length + 1)).any
    (fun i => needle.toList.isPrefixOf (hay.toList.drop i))

/-- Python `s.strip()` (whitespace from both ends). -/
def pyStrip (s : String) : String :=
  String.mk (((s.toList.dropWhile Char.isWhitespace).reverse.dropWhile
    Char.isWhitespace).reverse)

/-- Python `s.strip(chars)` for a character predicate. -/
def pyStripChars (p : Char → Bool) (s : String) : String :=
  String.mk (((s.toList.dropWhile p).reverse.dropWhile p).reverse)

/-- Python `s.startswith(pre)`. -/
def pyStartsWith (s pre : String) : Bool :=
  pre.toList.isPrefixOf s.toList

/-- Python `s.endswith(suf)`. -/
def pyEndsWith (s suf : String) : Bool :=
  suf.toList.reverse.isPrefixOf s.toList.reverse

/-- Python `'\n'.join(xs)`. -/
def joinLines (xs : List String) : String :=
  String.mk (List.intercalate ['\n'] (xs.map String.toList))

-- ---------------------------------------------------------------------------
-- JSON values
-- ---------------------------------------------------------------------------

/-- JSON values as consumed by the plugin manager.  Numbers are modelled as
integers (the index documents only carry strings and small integers). -/
inductive Json where
  | null : Json
  | bool : Bool → Json
  | num : Int → Json
  | str : String → Json
  | arr : List Json → Json
  | obj : List (String × Json) → Json

/-- Python truthiness (`if x:`) for JSON values: `None`, `False`, `0`, `""`,
`[]` and `{}` are falsy. -/
def Json.truthy : Json → Bool
  | .null => false
  | .bool b => b
  | .num n => n ≠ 0
  | .str s => ¬ s.toList.isEmpty
  | .arr xs => ¬ xs.isEmpty
  | .obj kvs => ¬ kvs.isEmpty

/-- Lookup of a key in an association list (Python `dict.get`, first match). -/
def lookupKV : List (String × Json) → String → Option Json
  | [], _ => none
  | (k', v) :: rest, k => if k' = k then some v else lookupKV rest k

/-- Python `d.get(k)` on a JSON object; `none` both for a missing key and for
a non-object receiver (the source always guards the latter with
`isinstance(..., dict)` where it matters). -/
def jget : Json → String → Option Json
  | .obj kvs, k => lookupKV kvs k
  | _, _ => none

/-- Update-or-append of a key in an association list (Python `d[k] = v`). -/
def setKV : List (String × Json) → String → Json → List (String × Json)
  | [], k, v => [(k, v)]
  | (k', v') :: rest, k, v =>
      if k' = k then (k, v) :: rest else (k', v') :: setKV rest k v

/-- Python `d[k] = v` on a JSON object; identity on non-objects (the source
only assigns into values it has already used as dicts). -/
def jset (j : Json) (k : String) (v : Json) : Json :=
  match j with
  | .obj kvs => .obj (setKV kvs k v)
  | _ => j

-- ---------------------------------------------------------------------------
-- Version comparator (`PluginManager._compare_version`, lines 1079-1115)
-- ---------------------------------------------------------------------------

/-- Python `str.isdigit()` restricted to ASCII, which is what version strings
contain: non-empty and all characters are decimal digits. -/
def pyIsDigit (s : String) : Bool :=
  ¬ s.toList.isEmpty && s.toList.all Char.isDigit

/-- Python `int(x)` for a digit string. -/
def strToNat (s : String) : Nat :=
  s.toList.foldl (fun a c => a * 10 + (c.toNat - 48)) 0

/-- The numeric segments of a version string, as computed at lines 1095-1096:
replace `-` and `_` by `.`, split on `.`, keep digit-only segments, convert
to integers. -/
def numSegs (v : String) : List Nat :=
  (splitChar '.' (replaceChar '_' '.' (replaceChar '-' '.' v))).filterMap
    (fun x => if pyIsDigit x then some (strToNat x) else none)

/-- Zero-padding of the shorter segment list (lines 1099-1101). -/
def padZeros (xs : List Nat) (m : Nat) : List Nat :=
  xs ++ List.replicate (m - xs.length) 0

/-- The segment-comparison loop of lines 1104-1112: first unequal pair
decides, equal prefixes fall through, exhaustion gives 0. -/
def cmpSegs : List Nat → List Nat → Int
  | a :: as, b :: bs =>
      if a > b then 1 else if a < b then -1 else cmpSegs as bs
  | _, _ => 0

/-- `PluginManager._compare_version` (lines 1079-1115): 1 if `v1 > v2`,
-1 if `v1 < v2`, 0 otherwise.  With ASCII inputs the body never raises, so
the `except` fallback to 0 is unreachable. -/
def compare_version (v1 v2 : String) : Int :=
  let p1 := numSegs v1
  let p2 := numSegs v2
  let m := max p1.length p2.length
  cmpSegs (padZeros p1 m) (padZeros p2 m)

/-- The comparison as the callers use it: `plugin_info.get('plugin_version',
'0.0.0')` may be any JSON value; on a non-string, `v1.replace` raises
`AttributeError`, which the comparator's `except` turns into 0. -/
def compareVersionJ : Json → Json → Int
  | .str a, .str b => compare_version a b
  | _, _ => 0

/-- The comparator as the spec words it (section 4.1): normalize `-` and `_`
to `.`, split, keep numeric segments, zero-pad, and let the first non-equal
pair decide. -/
def specCompareVersion (remote loc : String) : Int :=
  let p1 := numSegs remote
  let p2 := numSegs loc
  let m := max p1.length p2.length
  let q1 := padZeros p1 m
  let q2 := padZeros p2 m
  match (q1.zip q2).find? (fun ab => ab.1 != ab.2) with
  | some ab => if ab.1 > ab.2 then 1 else -1
  | none => 0

theorem cmpSegs_eq_find (xs ys : List Nat) :
    cmpSegs xs ys =
      (match (xs.zip ys).find? (fun ab => ab.1 != ab.2) with
       | some ab => if ab.1 > ab.2 then (1 : Int) else -1
       | none => 0) := by
  induction xs generalizing ys with
  | nil => cases ys <;> rfl
  | cons a as ih =>
    cases ys with
    | nil => rfl
    | cons b bs =>
      rw [show (a :: as).zip (b :: bs) = (a, b) :: as.zip bs from rfl,
        List.find?_cons]
      by_cases hab : a = b
      · subst hab
        simpa [cmpSegs] using ih bs
      · rcases Nat.lt_trichotomy a b with h | h | h
        · have h1 : ¬ b < a := Nat.lt_asymm h
          simp [cmpSegs, h, h1, bne_iff_ne.mpr hab]
        · exact absurd h hab
        · simp [cmpSegs, h, bne_iff_ne.mpr hab]

/-- Claim C3: the version comparator compares numerically segment by segment
after normalizing `-` and `_` to `.`, keeping only numeric segments and
zero-padding the shorter sequence, with the first unequal pair deciding;
in particular `compare("1.2.0","1.10.0") = -1` (LESS),
`compare("20240101_1200","20240101_1130") = 1` (GREATER), and
`compare("1.0","1.0.0") = 0` (EQUAL). -/
theorem c3_version_comparator :
    (∀ v1 v2 : String, compare_version v1 v2 = specCompareVersion v1 v2) ∧
    compare_version "1.2.0" "1.10.0" = -1 ∧
    compare_version "20240101_1200" "20240101_1130" = 1 ∧
    compare_version "1.0" "1.0.0" = 0 := by
  refine ⟨fun v1 v2 => ?_, by decide, by decide, by decide⟩
  simp [compare_version, specCompareVersion, cmpSegs_eq_find]

/-- Claim C4, as stated, is false: a garbled (zero-numeric-segment) string is
padded with zeros, not treated as equal, so `compare("abc","1.2") = -1`, not
0. -/
theorem c4_counterexample :
    numSegs "abc" = [] ∧ compare_version "abc" "1.2" = -1 := by
  constructor <;> decide

theorem cmpSegs_zero_left (ys : List Nat) :
    cmpSegs (List.replicate ys.length 0) ys =
      (if ys.all (· == 0) then 0 else -1) := by
  induction ys with
  | nil => simp [cmpSegs]
  | cons b bs ih =>
    simp only [List.length_cons, List.replicate_succ, List.all_cons]
    by_cases hb : b = 0
    · subst hb; simpa [cmpSegs] using ih
    · have hb' : 0 < b := Nat.pos_of_ne_zero hb
      simp [cmpSegs, hb', Nat.not_lt_of_lt hb', hb, beq_iff_eq]

theorem cmpSegs_zero_right (ys : List Nat) :
    cmpSegs ys (List.replicate ys.length 0) =
      (if ys.all (· == 0) then 0 else 1) := by
  induction ys with
  | nil => simp [cmpSegs]
  | cons b bs ih =>
    simp only [List.length_cons, List.replicate_succ, List.all_cons]
    by_cases hb : b = 0
    · subst hb; simpa [cmpSegs] using ih
    · have hb' : 0 < b := Nat.pos_of_ne_zero hb
      simp [cmpSegs, hb', hb, beq_iff_eq]

/-- Claim C4, amended: a version string with zero numeric segments is padded
with zeros, so the comparison yields EQUAL only when the other string's
numeric segments are all zero (in particular when both strings have zero
numeric segments); otherwise the side with a positive segment wins. -/
theorem c4_zero_segments_amended (v1 v2 : String) (h : numSegs v1 = []) :
    compare_version v1 v2 = (if (numSegs v2).all (· == 0) then 0 else -1) ∧
    compare_version v2 v1 = (if (numSegs v2).all (· == 0) then 0 else 1) := by
  constructor
  · simp [compare_version, padZeros, h, cmpSegs_zero_left]
  · simp [compare_version, padZeros, h, cmpSegs_zero_right]

/-- Witness for C4's amended theorem at the concrete garbled pair:
`"abc"` has no numeric segments and loses to `"1.2"` in both directions. -/
theorem c4_witness :
    compare_version "abc" "1.2" = (if (numSegs "1.2").all (· == 0) then 0 else -1) ∧
    compare_version "1.2" "abc" = (if (numSegs "1.2").all (· == 0) then 0 else 1) :=
  c4_zero_segments_amended "abc" "1.2" (by decide)

-- ---------------------------------------------------------------------------
-- Plugin index cache and remote fetcher
-- ---------------------------------------------------------------------------

/-- Outcome of one HTTP GET + JSON decode, classified as the source's
`except` clauses do: success with a parsed document, `urllib.error.HTTPError`
(non-2xx), `urllib.error.URLError` (transport failure), or
`json.JSONDecodeError` on the response body. -/
inductive NetOutcome where
  | ok : Json → NetOutcome
  | httpErr : NetOutcome
  | urlErr : NetOutcome
  | decodeErr : NetOutcome

/-- The network as an oracle from URL to outcome. -/
def Net : Type := String → NetOutcome

/-- Observable events of a fetch: a GET request to a URL, or a read of the
on-disk index file (`diskRead v` records the parsed content found, `none`
when the file is absent). -/
inductive Ev where
  | req : String → Ev
  | diskRead : Option Json → Ev

/-- Mutable state of the manager relevant to the index cache:
`mem` is `self.plugins_index_cache`, `disk` the parsed content of
`self.plugins_index_file` (`none` when absent or unparsable), and `oldDisk`
the parsed content of the legacy `plugins_dir/plugins_index.json` file that
`get_local_plugins_index` migrates (lines 198-209). -/
structure PMState where
  mem : Option Json
  disk : Option Json
  oldDisk : Option Json

/-- `plugins_index_url` default (line 65). -/
def plugins_index_url : String :=
  "https://github.com/pjnt9372/Capture_Push_Plugin/releases/latest/download/plugins_index.json"

/-- `repository_url` default (line 58). -/
def repository_url : String :=
  "https://api.github.com/repos/pjnt9372/Capture_Push_Plugin/releases/tags/plugin%2Flatest"

/-- `PROXY_URL_PREFIX` (line 18). -/
def proxyUrlHead : String := "https://ghfast.top/"

/-- `PluginManager.get_local_plugins_index` (lines 182-217): read the on-disk
index file; when absent, migrate the legacy old-location file and read the
migrated copy; `none` on absence (a parse failure of the disk file is
represented by `disk = none`). -/
def get_local_plugins_index (s : PMState) : Option Json × PMState × List Ev :=
  match s.disk with
  | some d => (some d, s, [Ev.diskRead (some d)])
  | none =>
      match s.oldDisk with
      | some d => (some d, { s with disk := some d },
          [Ev.diskRead none, Ev.diskRead (some d)])
      | none => (none, s, [Ev.diskRead none])

/-- The disk/memory fallback at the end of every failure path of
`_fetch_plugins_index` (lines 673-681, 722-733, 739-747, 751-759). -/
def fetchLocalFallback (s : PMState) (t : List Ev) :
    Option Json × PMState × List Ev :=
  match get_local_plugins_index s with
  | (some l, s1, t1) =>
      if l.truthy then (some l, { s1 with mem := some l }, t ++ t1)
      else (none, s1, t ++ t1)
  | (none, s1, t1) => (none, s1, t ++ t1)

/-- The proxy retry + local fallback shared by the `HTTPError` handler
(lines 626-681) and the `URLError` handler (lines 682-733) of
`_fetch_plugins_index`. -/
def fetchProxyThenLocal (s : PMState) (net : Net) (t : List Ev) :
    Option Json × PMState × List Ev :=
  let purl := proxyUrlHead ++ plugins_index_url
  match net purl with
  | .ok j => (some j, { s with mem := some j, disk := some j },
      t ++ [Ev.req purl])
  | _ => fetchLocalFallback s (t ++ [Ev.req purl])

/-- The network stage of `_fetch_plugins_index` (lines 593-624 plus its
handlers): GET the primary URL; on success write disk and memory; on
`HTTPError` or `URLError` retry through the proxy then fall back to disk;
on a JSON decode error fall back to disk without a proxy retry. -/
def fetchNetwork (s : PMState) (net : Net) (t : List Ev) :
    Option Json × PMState × List Ev :=
  match net plugins_index_url with
  | .ok j => (some j, { s with mem := some j, disk := some j },
      t ++ [Ev.req plugins_index_url])
  | .httpErr => fetchProxyThenLocal s net (t ++ [Ev.req plugins_index_url])
  | .urlErr => fetchProxyThenLocal s net (t ++ [Ev.req plugins_index_url])
  | .decodeErr => fetchLocalFallback s (t ++ [Ev.req plugins_index_url])

/-- `_fetch_plugins_index` after the in-memory cache check: try the on-disk
file (lines 581-588, with truthiness), else the network. -/
def fetchAfterCache (s : PMState) (net : Net) :
    Option Json × PMState × List Ev :=
  match get_local_plugins_index s with
  | (some l, s1, t1) =>
      if l.truthy then (some l, { s1 with mem := some l }, t1)
      else fetchNetwork s1 net t1
  | (none, s1, t1) => fetchNetwork s1 net t1

/-- `PluginManager._fetch_plugins_index` (lines 566-759): in-memory cache
(with Python truthiness, line 577), then disk, then network with the
fallbacks above. -/
def fetchPluginsIndexT (s : PMState) (net : Net) :
    Option Json × PMState × List Ev :=
  match s.mem with
  | some c => if c.truthy then (some c, s, []) else fetchAfterCache s net
  | none => fetchAfterCache s net

/-- `PluginManager.update_plugins_index` (lines 109-180): GET the primary
URL; write disk and memory on success; on `HTTPError` (line 141) or a JSON
decode error (line 174) return `False` with no proxy retry; only on
`URLError` (line 145) retry once through the proxy. -/
def update_plugins_indexT (s : PMState) (net : Net) :
    Bool × PMState × List Ev :=
  match net plugins_index_url with
  | .ok j => (true, { s with mem := some j, disk := some j },
      [Ev.req plugins_index_url])
  | .httpErr => (false, s, [Ev.req plugins_index_url])
  | .decodeErr => (false, s, [Ev.req plugins_index_url])
  | .urlErr =>
      let purl := proxyUrlHead ++ plugins_index_url
      match net purl with
      | .ok j => (true, { s with mem := some j, disk := some j },
          [Ev.req plugins_index_url, Ev.req purl])
      | _ => (false, s, [Ev.req plugins_index_url, Ev.req purl])

/-- `PluginManager.force_refresh_plugins_index` (lines 767-796): clear the
in-memory cache, delete the on-disk index file (the legacy old-location file
is not deleted), then re-fetch; the result's truthiness is the return. -/
def force_refresh_plugins_indexT (s : PMState) (net : Net) :
    Bool × PMState × List Ev :=
  let s1 : PMState := { mem := none, disk := none, oldDisk := s.oldDisk }
  match fetchPluginsIndexT s1 net with
  | (some j, s2, t) => (j.truthy, s2, t)
  | (none, s2, t) => (false, s2, t)

-- ---------------------------------------------------------------------------
-- Index lookup (`PluginManager.get_plugin_info_from_index`, lines 970-1014)
-- ---------------------------------------------------------------------------

/-- Result of an index lookup: a record found, nothing found (the function
returns `None`), or an uncaught exception propagating to the caller (the
function has no `try` block). -/
inductive LRes where
  | found : Json → LRes
  | notFound : LRes
  | raised : LRes

/-- Python `plugin.get('school_code') == school_code`: true only for a dict
whose `school_code` value is exactly the string `code`. -/
def hasSchoolCode (p : Json) (code : String) : Bool :=
  match jget p "school_code" with
  | some (.str s) => s = code
  | _ => false

/-- The scan of lines 998-1009: skip non-dict items, return the first record
whose `school_code` equals the query. -/
def scanPlugins (code : String) : List Json → LRes
  | [] => .notFound
  | p :: rest =>
      match p with
      | .obj kvs => if hasSchoolCode (.obj kvs) code then .found (.obj kvs)
          else scanPlugins code rest
      | _ => scanPlugins code rest

/-- `PluginManager.get_plugin_info_from_index` (lines 970-1014).  Note the
source's bare-list branch (lines 993-995) is dead code: the
`isinstance(plugins_index, list)` test is nested inside the
`isinstance(plugins_index, dict)` branch, so a bare-array index always falls
into the `else` of line 1010 and yields `None`.  A `plugins` value that is
itself a string or dict iterates over characters/keys, none of which are
dicts, so the scan finds nothing; a number/bool/null `plugins` value makes
the `for` raise `TypeError`, which propagates (no `try` here). -/
def get_plugin_info_from_index (s : PMState) (net : Net) (code : String) :
    LRes × PMState × List Ev :=
  match fetchPluginsIndexT s net with
  | (none, s1, t) => (.notFound, s1, t)
  | (some idx, s1, t) =>
      if ¬ idx.truthy then (.notFound, s1, t)
      else
        match idx with
        | .obj kvs =>
            match (jget (.obj kvs) "plugins").getD (.arr []) with
            | .arr ps => (scanPlugins code ps, s1, t)
            | .str _ => (.notFound, s1, t)
            | .obj _ => (.notFound, s1, t)
            | _ => (.raised, s1, t)
        | _ => (.notFound, s1, t)

-- ---------------------------------------------------------------------------
-- Claims C7, C2, C8
-- ---------------------------------------------------------------------------

/-- A network that always fails at the transport level. -/
def cNet0 : Net := fun _ => .urlErr

/-- An index record as in the spec's resolver example. -/
def c7record : Json := .obj [("school_code", .str "10546"), ("plugin_version", .str "2")]

/-- A cached bare-array index document. -/
def c7bare : PMState := ⟨some (.arr [c7record]), none, none⟩

/-- A cached object-with-`plugins`-array index document. -/
def c7wrapped : PMState := ⟨some (.obj [("plugins", .arr [c7record])]), none, none⟩

/-- Claim C7 is right and the code is wrong (code_bug): the spec accepts both
index shapes, and the source's own comment at lines 993-995 says a bare list
should be scanned directly, but the `isinstance(plugins_index, list)` test
there is nested inside the `isinstance(plugins_index, dict)` branch and can
never be true, so a bare-array index yields `None` while the wrapped form
finds the record. -/
theorem c7_bare_array_lookup :
    (get_plugin_info_from_index c7bare cNet0 "10546").1 = .notFound ∧
    (get_plugin_info_from_index c7wrapped cNet0 "10546").1 = .found c7record := by
  constructor <;> rfl

/-- A network whose primary index fetch fails with an HTTP error status. -/
def c2net : Net := fun u => if u = plugins_index_url then .httpErr else .urlErr

/-- The empty manager state: no memory cache, no disk file, no legacy file. -/
def emptyPM : PMState := ⟨none, none, none⟩

/-- Claim C2, as stated, is false: in `_fetch_plugins_index` an HTTP error
status on the primary request does trigger a proxy-prefixed retry (the
`except HTTPError` handler at lines 626-668 performs one), as this concrete
trace shows. -/
theorem c2_counterexample :
    c2net plugins_index_url = .httpErr ∧
    (fetchPluginsIndexT emptyPM c2net).2.2 =
      [Ev.diskRead none, Ev.req plugins_index_url,
       Ev.req (proxyUrlHead ++ plugins_index_url), Ev.diskRead none] := by
  constructor <;> rfl

theorem proxy_ne_primary : proxyUrlHead ++ plugins_index_url ≠ plugins_index_url := by
  decide

theorem get_local_no_req (s : PMState) (u : String) :
    Ev.req u ∉ (get_local_plugins_index s).2.2 := by
  rcases s with ⟨m, d, o⟩
  cases d <;> cases o <;> simp [get_local_plugins_index]

theorem fetchLocalFallback_req (s : PMState) (t : List Ev) (u : String) :
    Ev.req u ∈ (fetchLocalFallback s t).2.2 ↔ Ev.req u ∈ t := by
  have hno := get_local_no_req s u
  rcases hgl : get_local_plugins_index s with ⟨l, s1, t1⟩
  rw [hgl] at hno
  simp only at hno
  cases l with
  | none => simp [fetchLocalFallback, hgl, List.mem_append, hno]
  | some j =>
      by_cases hj : j.truthy <;>
        simp [fetchLocalFallback, hgl, hj, List.mem_append, hno]

theorem fetchProxyThenLocal_req (s : PMState) (net : Net) (t : List Ev)
    (u : String) :
    Ev.req u ∈ (fetchProxyThenLocal s net t).2.2 ↔
      (Ev.req u ∈ t ∨ u = proxyUrlHead ++ plugins_index_url) := by
  cases h : net (proxyUrlHead ++ plugins_index_url) <;>
    simp [fetchProxyThenLocal, h, fetchLocalFallback_req, List.mem_append]

theorem fetchNetwork_proxy_req (s : PMState) (net : Net) (t : List Ev)
    (hm : Ev.req (proxyUrlHead ++ plugins_index_url) ∈ (fetchNetwork s net t).2.2)
    (ht : Ev.req (proxyUrlHead ++ plugins_index_url) ∉ t) :
    net plugins_index_url = .httpErr ∨ net plugins_index_url = .urlErr := by
  cases h : net plugins_index_url with
  | ok j =>
      simp only [fetchNetwork, h] at hm
      simp [List.mem_append, ht, proxy_ne_primary] at hm
  | httpErr => exact Or.inl rfl
  | urlErr => exact Or.inr rfl
  | decodeErr =>
      simp only [fetchNetwork, h] at hm
      rw [fetchLocalFallback_req] at hm
      simp [List.mem_append, ht, proxy_ne_primary] at hm

theorem fetchPluginsIndexT_proxy_req (s : PMState) (net : Net)
    (hm : Ev.req (proxyUrlHead ++ plugins_index_url) ∈ (fetchPluginsIndexT s net).2.2) :
    net plugins_index_url = .httpErr ∨ net plugins_index_url = .urlErr := by
  have hgl := get_local_no_req s (proxyUrlHead ++ plugins_index_url)
  rcases hg : get_local_plugins_index s with ⟨l, s1, t1⟩
  rw [hg] at hgl
  simp only at hgl
  have hac : Ev.req (proxyUrlHead ++ plugins_index_url) ∈ (fetchAfterCache s net).2.2 →
      net plugins_index_url = .httpErr ∨ net plugins_index_url = .urlErr := by
    intro hm'
    cases l with
    | none =>
        simp only [fetchAfterCache, hg] at hm'
        exact fetchNetwork_proxy_req s1 net t1 hm' hgl
    | some j =>
        by_cases hj : j.truthy
        · simp only [fetchAfterCache, hg, hj, if_true] at hm'
          exact absurd hm' hgl
        · simp only [fetchAfterCache, hg, hj, if_false] at hm'
          exact fetchNetwork_proxy_req s1 net t1 hm' hgl
  cases hmem : s.mem with
  | none =>
      simp only [fetchPluginsIndexT, hmem] at hm
      exact hac hm
  | some c =>
      by_cases hc : c.truthy
      · simp [fetchPluginsIndexT, hmem, hc] at hm
      · simp only [fetchPluginsIndexT, hmem, hc, if_false] at hm
        exact hac hm

/-- Claim C2, amended: in `update_plugins_index` the proxy-prefixed request
is issued exactly when the primary request fails with `URLError` (never on
HTTP error or decode error); in `_fetch_plugins_index`, however, a proxy
request is issued only after `URLError` or after an HTTP error status (its
`HTTPError` handler also retries through the proxy); a JSON decode error
never triggers a proxy retry in either function. -/
theorem c2_proxy_retry_amended :
    (∀ (s : PMState) (net : Net),
      Ev.req (proxyUrlHead ++ plugins_index_url) ∈ (update_plugins_indexT s net).2.2 ↔
        net plugins_index_url = .urlErr) ∧
    (∀ (s : PMState) (net : Net),
      Ev.req (proxyUrlHead ++ plugins_index_url) ∈ (fetchPluginsIndexT s net).2.2 →
        net plugins_index_url = .httpErr ∨ net plugins_index_url = .urlErr) := by
  constructor
  · intro s net
    cases h : net plugins_index_url with
    | urlErr =>
        cases h2 : net (proxyUrlHead ++ plugins_index_url) <;>
          simp [update_plugins_indexT, h, h2]
    | ok j => simp [update_plugins_indexT, h, proxy_ne_primary]
    | httpErr => simp [update_plugins_indexT, h, proxy_ne_primary]
    | decodeErr => simp [update_plugins_indexT, h, proxy_ne_primary]
  · exact fetchPluginsIndexT_proxy_req

/-- Witness for C2's amended theorem: with an empty state and a network whose
primary fetch raises an HTTP error, the proxy request in the fetch trace is
explained by that HTTP error. -/
theorem c2_witness :
    (Ev.req (proxyUrlHead ++ plugins_index_url) ∈ (update_plugins_indexT emptyPM c2net).2.2 ↔
      c2net plugins_index_url = .urlErr) ∧
    (c2net plugins_index_url = .httpErr ∨ c2net plugins_index_url = .urlErr) :=
  ⟨c2_proxy_retry_amended.1 emptyPM c2net,
   c2_proxy_retry_amended.2 emptyPM c2net (by
     rw [c2_counterexample.2]
     simp)⟩

/-- A truthy legacy index document sitting at the old on-disk location. -/
def c8legacy : Json := .obj [("plugins", .arr [c7record])]

/-- Pre-refresh state: an on-disk index file plus a legacy old-location file. -/
def c8pre : PMState := ⟨none, some (.obj [("plugins", .arr [])]), some c8legacy⟩

/-- Claim C8, as stated, is false: `force_refresh_plugins_index` deletes only
the new-location index file, not the legacy `plugins_dir/plugins_index.json`
file, so with a legacy file present the refetch migrates and reads that
pre-refresh on-disk data and never touches the network, as this concrete run
shows (the trace contains no request event). -/
theorem c8_counterexample :
    force_refresh_plugins_indexT c8pre cNet0 =
      (true, ⟨some c8legacy, some c8legacy, some c8legacy⟩,
       [Ev.diskRead none, Ev.diskRead (some c8legacy)]) := by
  rfl

/-- Claim C8, amended: provided no legacy index file exists at the old
location, after `force_refresh_plugins_index` clears the memory cache and
deletes the on-disk file, the embedded fetch does hit the network (the trace
contains the primary request), every disk read during the refresh observes
an absent file (never the pre-refresh content), and the resulting on-disk
file is either absent or freshly written from a network response of this
run. -/
theorem c8_force_refresh_amended (s : PMState) (net : Net)
    (h : s.oldDisk = none) :
    Ev.req plugins_index_url ∈ (force_refresh_plugins_indexT s net).2.2 ∧
    (∀ v, Ev.diskRead v ∈ (force_refresh_plugins_indexT s net).2.2 → v = none) ∧
    ((force_refresh_plugins_indexT s net).2.1.disk = none ∨
      ∃ j, (net plugins_index_url = .ok j ∨
            net (proxyUrlHead ++ plugins_index_url) = .ok j) ∧
        (force_refresh_plugins_indexT s net).2.1.disk = some j) := by
  rcases s with ⟨m, d, o⟩
  simp only at h
  subst h
  cases h1 : net plugins_index_url with
  | ok j =>
      refine ⟨?_, ?_, ?_⟩ <;>
        simp [force_refresh_plugins_indexT, fetchPluginsIndexT, fetchAfterCache,
          get_local_plugins_index, fetchNetwork, h1]
  | httpErr =>
      cases h2 : net (proxyUrlHead ++ plugins_index_url) <;>
        refine ⟨?_, ?_, ?_⟩ <;>
          simp [force_refresh_plugins_indexT, fetchPluginsIndexT, fetchAfterCache,
            get_local_plugins_index, fetchNetwork, fetchProxyThenLocal,
            fetchLocalFallback, h1, h2]
  | urlErr =>
      cases h2 : net (proxyUrlHead ++ plugins_index_url) <;>
        refine ⟨?_, ?_, ?_⟩ <;>
          simp [force_refresh_plugins_indexT, fetchPluginsIndexT, fetchAfterCache,
            get_local_plugins_index, fetchNetwork, fetchProxyThenLocal,
            fetchLocalFallback, h1, h2]
  | decodeErr =>
      refine ⟨?_, ?_, ?_⟩ <;>
        simp [force_refresh_plugins_indexT, fetchPluginsIndexT, fetchAfterCache,
          get_local_plugins_index, fetchNetwork, fetchLocalFallback, h1]

/-- A network that answers the primary index URL with a fresh document. -/
def c8wNet : Net := fun u =>
  if u = plugins_index_url then .ok (.obj [("plugins", .arr [c7record])])
  else .urlErr

/-- A pre-refresh state with stale memory and disk but no legacy file. -/
def c8wState : PMState := ⟨some (.arr []), some (.obj []), none⟩

/-- Witness for C8's amended theorem at a concrete state and network. -/
theorem c8_witness :
    Ev.req plugins_index_url ∈ (force_refresh_plugins_indexT c8wState c8wNet).2.2 ∧
    (∀ v, Ev.diskRead v ∈ (force_refresh_plugins_indexT c8wState c8wNet).2.2 → v = none) ∧
    ((force_refresh_plugins_indexT c8wState c8wNet).2.1.disk = none ∨
      ∃ j, (c8wNet plugins_index_url = .ok j ∨
            c8wNet (proxyUrlHead ++ plugins_index_url) = .ok j) ∧
        (force_refresh_plugins_indexT c8wState c8wNet).2.1.disk = some j) :=
  c8_force_refresh_amended c8wState c8wNet rfl

-- ---------------------------------------------------------------------------
-- Local plugin version (`PluginManager._get_local_plugin_version`, 71-107)
-- ---------------------------------------------------------------------------

/-- The on-disk state of one installed plugin directory: content of
`version.txt` when that file exists, and content of `__init__.py` when it
exists. -/
structure LocalPlugin where
  versionTxt : Option String
  initFile : Option String

def stripQuotes (s : String) : String :=
  pyStripChars (fun c => c = '"' || c = '\'') s

/-- The `__init__.py` scan of lines 93-103: the first line whose stripped
form starts with `PLUGIN_VERSION` or `VERSION` and contains `=` yields the
part after the first `=`, stripped of whitespace and quotes. -/
def scanInitLines : List String → Option String
  | [] => none
  | line :: rest =>
      if pyStartsWith (pyStrip line) "PLUGIN_VERSION" ||
          pyStartsWith (pyStrip line) "VERSION" then
        match splitChar '=' line with
        | _ :: p1 :: _ => some (stripQuotes (pyStrip p1))
        | _ => scanInitLines rest
      else scanInitLines rest

/-- `PluginManager._get_local_plugin_version` (lines 71-107): `version.txt`
stripped, else the `__init__.py` version constant, else `"0.0.0"`. -/
def get_local_plugin_version (lfs : String → Option LocalPlugin)
    (code : String) : String :=
  match lfs code with
  | none => "0.0.0"
  | some lp =>
      match lp.versionTxt with
      | some txt => pyStrip txt
      | none =>
          match lp.initFile with
          | some content =>
              match scanInitLines (splitChar '\n' content) with
              | some v => v
              | none => "0.0.0"
          | none => "0.0.0"

-- ---------------------------------------------------------------------------
-- Release-body parsing (`PluginManager._parse_plugin_info`, lines 392-469)
-- ---------------------------------------------------------------------------

/-- Python `lines[j]` with negative indexing (only `-1` is reachable here,
when no line at or before the marker contains `{`). -/
def pyGet (lines : List String) (j : Int) : String :=
  if j < 0 then lines.getD (lines.length - (-j).toNat) ""
  else lines.getD j.toNat ""

/-- Python `range(a, n)` over integers (the source can call it with `a = -1`). -/
def pyRange (a : Int) (n : Nat) : List Int :=
  (List.range ((n : Int) - a).toNat).map (fun t => a + (t : Int))

/-- Python list slice `xs[a:b]` with negative-index normalization. -/
def pySlice (xs : List String) (a b : Int) : List String :=
  let n := xs.length
  let norm : Int → Nat := fun i =>
    if i < 0 then ((n : Int) + i).toNat else (min i (n : Int)).toNat
  ((xs.drop (norm a)).take (norm b - norm a))

def countChar (s : String) (c : Char) : Nat :=
  (s.toList.filter (fun x => x = c)).length

/-- The backward search of lines 410-414: the largest index `j ≤ i` whose
line contains `{`, else `-1`. -/
def findStart (lines : List String) (i : Nat) : Int :=
  match (List.range (i + 1)).reverse.find?
      (fun j => strContains (lines.getD j "") "\x7b") with
  | some j => (j : Int)
  | none => -1

/-- The forward brace-counting loop of lines 416-422 over `range(start, n)`:
first index where the running count is `≤ 0` and the line contains `}`;
the default is the marker index `i`. -/
def findEnd (lines : List String) : List Int → Int → Int → Int
  | [], _, dflt => dflt
  | j :: rest, bc, dflt =>
      let line := pyGet lines j
      let bc' := bc + (countChar line '{' : Int) - (countChar line '}' : Int)
      if bc' ≤ 0 ∧ strContains line "\x7d" then j
      else findEnd lines rest bc' dflt

def extractGo : List Char → Nat → List Char → Option (List Char)
  | [], _, _ => none
  | c :: rest, bc, acc =>
      if c = '{' then extractGo rest (bc + 1) (c :: acc)
      else if c = '}' then
        (if bc = 1 then some ((c :: acc).reverse) else extractGo rest (bc - 1) (c :: acc))
      else extractGo rest bc (c :: acc)

/-- `PluginManager._extract_json_object` (lines 1016-1043): from the first
`{`, return the prefix through the matching `}`, else `None`. -/
def extract_json_object (text : String) : Option String :=
  match text.toList.findIdx? (fun c => c = '{') with
  | none => none
  | some st => (extractGo (text.toList.drop st) 0 []).map String.mk

def marker1 (code : String) : String := "\"school_code\": \"" ++ code ++ "\""

def marker2 (code : String) : String := "'school_code': '" ++ code ++ "'"

/-- The line loop of lines 406-433.  `loads` stands for Python's
`json.loads`, an external collaborator: `none` means it raised, which the
function-level `except` turns into an overall `None`; a parsed non-dict
makes `.get` raise with the same effect; a parsed dict with the wrong
`school_code` lets the loop continue. -/
def scanLoop (loads : String → Option Json) (lines : List String)
    (code : String) : List (Nat × String) → Option Json
  | [] => none
  | (i, line) :: rest =>
      if strContains line (marker1 code) || strContains line (marker2 code) then
        match extract_json_object (joinLines (pySlice lines (findStart lines i)
            (findEnd lines (pyRange (findStart lines i) lines.length) 0
              (i : Int) + 1))) with
        | some jsn =>
            if jsn.toList.isEmpty then scanLoop loads lines code rest
            else
              match loads jsn with
              | none => none
              | some pv =>
                  match pv with
                  | .obj kvs =>
                      if hasSchoolCode (.obj kvs) code then some (.obj kvs)
                      else scanLoop loads lines code rest
                  | _ => none
        | none => scanLoop loads lines code rest
      else scanLoop loads lines code rest

/-- `PluginManager._parse_plugin_info` (lines 392-469).  Only the embedded
JSON scan can succeed: after the loop, line 438 builds the strict pattern as
`rf'...', re.DOTALL` - a tuple, not a string - so `re.search(pattern, ...)`
raises `TypeError`, the function-level `except` swallows it, and the two
looser patterns of lines 450-464 are unreachable; the function returns
`None`.  A non-string `body` makes `body.split` raise with the same
effect. -/
def parse_plugin_info (loads : String → Option Json) (body : Json)
    (code : String) : Option Json :=
  match body with
  | .str s => scanLoop loads (splitChar '\n' s) code (splitChar '\n' s).enum
  | _ => none

-- ---------------------------------------------------------------------------
-- Asset inference (`_infer_plugin_info_from_assets`, lines 471-564)
-- ---------------------------------------------------------------------------

def isHexChar (c : Char) : Bool :=
  c.isDigit || ('a' ≤ c && c ≤ 'f') || ('A' ≤ c && c ≤ 'F')

/-- Python `re.findall(r'[a-fA-F0-9]{64}', s)`: non-overlapping
left-to-right matches of exactly 64 hex characters. -/
def findall64Go : Nat → List Char → List String
  | 0, _ => []
  | _, [] => []
  | fuel + 1, c :: rest =>
      let cand := (c :: rest).take 64
      if cand.length = 64 && cand.all isHexChar then
        String.mk cand :: findall64Go fuel ((c :: rest).drop 64)
      else findall64Go fuel rest

def findall64 (s : String) : List String :=
  findall64Go s.toList.length s.toList

/-- One attempted match of `"plugin_version":\s*"([^"]+)"` at the head of
`cs`. -/
def pvMatchAt (cs : List Char) : Option String :=
  let lit := "\"plugin_version\":".toList
  if lit.isPrefixOf cs then
    match (cs.drop lit.length).dropWhile Char.isWhitespace with
    | '"' :: tail =>
        let cap := tail.takeWhile (fun c => ¬ c = '"')
        if cap.isEmpty then none
        else if (tail.drop cap.length).head? = some '"' then some (String.mk cap)
        else none
    | _ => none
  else none

def pvSearchList : List Char → Option String
  | [] => none
  | c :: rest =>
      match pvMatchAt (c :: rest) with
      | some v => some v
      | none => pvSearchList rest

/-- Python `re.search(r'"plugin_version":\s*"([^\"]+)"', s)` (line 500):
first position where the whole pattern matches. -/
def pvSearch (s : String) : Option String := pvSearchList s.toList

/-- `release_data.get('author', {}).get('login', 'Unknown')` (lines 274,
535, 556): `none` models the `AttributeError` raised when `author` is
neither absent nor a dict. -/
def getAuthorLogin (rd : Json) : Option Json :=
  match (jget rd "author").getD (.obj []) with
  | .obj kvs => some ((lookupKV kvs "login").getD (.str "Unknown"))
  | _ => none

/-- Lines 271-275 / 350-354 / 360-362: add the release author as
`contributor` when the key is absent; `none` models a raised exception
(receiver not a dict, or `author` not a dict). -/
def addContributor (rd : Json) (info : Json) : Option Json :=
  match info with
  | .obj kvs =>
      match lookupKV kvs "contributor" with
      | some _ => some (.obj kvs)
      | none =>
          match getAuthorLogin rd with
          | some v => some (jset (.obj kvs) "contributor" v)
          | none => none
  | _ => none

/-- The `sha256 or ''` / asset-fallback logic of lines 504-536 together with
the result construction of the exact-name branch. -/
def finishAsset1 (code : String) (rd : Json) (asset : Json) (version : String)
    (sha0 : Option String) : Option Json :=
  match getAuthorLogin rd with
  | none => none
  | some contrib =>
      some (.obj [("school_code", .str code), ("plugin_version", .str version),
        ("sha256", match sha0 with
          | some hx => .str hx
          | none =>
              match jget asset "sha256" with
              | some v => if v.truthy then v else .str ""
              | none => .str ""),
        ("download_url", (jget asset "browser_download_url").getD (.str "")),
        ("contributor", contrib)])

/-- The exact-name branch of the asset loop (lines 486-538): version from
the tag (`lstrip('v')`), overridden by an embedded `"plugin_version"` field
in the body; sha256 as the first 64-hex run of the body when the code
appears there; `none` models a raised exception (non-string `tag_name` or
`body`). -/
def buildAsset1 (code : String) (rd : Json) (asset : Json) : Option Json :=
  match (jget rd "tag_name").getD (.str "v1.0.0") with
  | .str tag =>
      match jget rd "body" with
      | some (.str bt) =>
          finishAsset1 code rd asset
            (if strContains bt "\"plugin_version\":" then
              (pvSearch bt).getD (String.mk (tag.toList.dropWhile (fun c => c = 'v')))
            else String.mk (tag.toList.dropWhile (fun c => c = 'v')))
            (if strContains bt code then (findall64 bt).head? else none)
      | none =>
          finishAsset1 code rd asset
            (String.mk (tag.toList.dropWhile (fun c => c = 'v'))) none
      | some _ => none
  | _ => none

/-- The first-ZIP fallback branch (lines 541-559). -/
def buildAsset2 (code : String) (rd : Json) (asset : Json) : Option Json :=
  match (jget rd "tag_name").getD (.str "v1.0.0") with
  | .str tag =>
      match getAuthorLogin rd with
      | none => none
      | some contrib =>
          some (.obj [("school_code", .str code),
            ("plugin_version", .str (String.mk (tag.toList.dropWhile (fun c => c = 'v')))),
            ("sha256", .str ""),
            ("download_url", (jget asset "browser_download_url").getD (.str "")),
            ("contributor", contrib)])
  | _ => none

/-- First asset loop of `_infer_plugin_info_from_assets`: exact name match;
`.error` models a raised exception (non-dict asset, or a raise inside the
result construction), which the function's `except` turns into `None`. -/
def inferLoop1 (code : String) (rd : Json) : List Json → Except Unit (Option Json)
  | [] => .ok none
  | a :: rest =>
      match a with
      | .obj kvs =>
          match lookupKV kvs "name" with
          | some (.str nm) =>
              if nm = "school_" ++ code ++ "_plugin.zip" then
                match buildAsset1 code rd (.obj kvs) with
                | some r => .ok (some r)
                | none => .error ()
              else inferLoop1 code rd rest
          | _ => inferLoop1 code rd rest
      | _ => .error ()

/-- Second asset loop: first `.zip`-suffixed asset; a non-string name makes
`.endswith` raise. -/
def inferLoop2 (code : String) (rd : Json) : List Json → Except Unit (Option Json)
  | [] => .ok none
  | a :: rest =>
      match a with
      | .obj kvs =>
          match (lookupKV kvs "name").getD (.str "") with
          | .str nm =>
              if pyEndsWith nm ".zip" then
                match buildAsset2 code rd (.obj kvs) with
                | some r => .ok (some r)
                | none => .error ()
              else inferLoop2 code rd rest
          | _ => .error ()
      | _ => .error ()

/-- `PluginManager._infer_plugin_info_from_assets` (lines 471-564); the
whole body is wrapped in `try/except`, so every raise yields `None`. -/
def infer_plugin_info_from_assets (assets : Json) (code : String) (rd : Json) :
    Option Json :=
  match assets with
  | .arr xs =>
      match inferLoop1 code rd xs with
      | .error _ => none
      | .ok (some r) => some r
      | .ok none =>
          match inferLoop2 code rd xs with
          | .error _ => none
          | .ok r => r
  | _ => none

-- ---------------------------------------------------------------------------
-- Download URL (`PluginManager._get_download_url`, lines 1045-1077)
-- ---------------------------------------------------------------------------

def dlLoop1 (expected : String) : List Json → Except Unit (Option Json)
  | [] => .ok none
  | a :: rest =>
      match a with
      | .obj kvs =>
          match lookupKV kvs "name" with
          | some (.str nm) =>
              if nm = expected then
                .ok (some ((lookupKV kvs "browser_download_url").getD (.str "")))
              else dlLoop1 expected rest
          | _ => dlLoop1 expected rest
      | _ => .error ()

def dlLoop2 (expected : String) : List Json → Except Unit (Option Json)
  | [] => .ok none
  | a :: rest =>
      match a with
      | .obj kvs =>
          match (lookupKV kvs "name").getD (.str "") with
          | .str nm =>
              if strContains nm expected then
                .ok (some ((lookupKV kvs "browser_download_url").getD (.str "")))
              else dlLoop2 expected rest
          | _ => .error ()
      | _ => .error ()

/-- `PluginManager._get_download_url` (lines 1045-1077): exact asset name,
then substring match; any raise is caught and yields `None`; the found
`browser_download_url` value is returned as-is (possibly a non-string). -/
def get_download_url (data : Json) (code : String) : Option Json :=
  match (jget data "assets").getD (.arr []) with
  | .arr xs =>
      match dlLoop1 ("school_" ++ code ++ "_plugin.zip") xs with
      | .error _ => none
      | .ok (some u) => some u
      | .ok none =>
          match dlLoop2 ("school_" ++ code ++ "_plugin.zip") xs with
          | .error _ => none
          | .ok r => r
  | _ => none

-- ---------------------------------------------------------------------------
-- Update resolver (`PluginManager.check_plugin_update`, lines 219-390)
-- ---------------------------------------------------------------------------

/-- The index-path version check (lines 238-252 and 327-341): remote version
from the record (default `'0.0.0'`), compare with the local version, and on
strict increase return the record with `remote_version` and `local_version`
added. -/
def versionCheckIndexPath (info : Json) (lv : String) : Option Json :=
  if 0 < compareVersionJ ((jget info "plugin_version").getD (.str "0.0.0"))
      (.str lv) then
    some (jset (jset info "remote_version"
        ((jget info "plugin_version").getD (.str "0.0.0")))
      "local_version" (.str lv))
  else none

/-- The release-path version check (lines 289-304 and 368-383): like the
index path, but also sets `download_url` from `_get_download_url` (Python
`None` becomes JSON null). -/
def versionCheckRelease (data : Json) (code lv : String) (info : Json) :
    Option Json :=
  if 0 < compareVersionJ ((jget info "plugin_version").getD (.str "0.0.0"))
      (.str lv) then
    some (jset (jset (jset info "download_url"
        ((get_download_url data code).getD .null))
      "remote_version" ((jget info "plugin_version").getD (.str "0.0.0")))
      "local_version" (.str lv))
  else none

/-- The asset-inference continuation of the release path (lines 277-304). -/
def afterInfer (data : Json) (code lv : String) : Option Json :=
  match infer_plugin_info_from_assets ((jget data "assets").getD (.arr []))
      code data with
  | none => none
  | some info =>
      if info.truthy then
        match addContributor data info with
        | none => none
        | some info1 =>
            if info1.truthy then versionCheckRelease data code lv info1 else none
      else none

/-- The release-data resolution of lines 265-304 (identically repeated at
344-383): parse the body, add the contributor, else infer from assets, then
version-check.  A non-dict release document makes `data.get` raise, which
the enclosing `except` turns into `None`. -/
def releaseResolveAndCheck (loads : String → Option Json) (data : Json)
    (code lv : String) : Option Json :=
  match data with
  | .obj _ =>
      match parse_plugin_info loads ((jget data "body").getD (.str "")) code with
      | some info =>
          if info.truthy then
            match addContributor data info with
            | none => none
            | some info1 =>
                if info1.truthy then versionCheckRelease data code lv info1
                else afterInfer data code lv
          else afterInfer data code lv
      | none => afterInfer data code lv
  | _ => none

/-- The `URLError` handler of `check_plugin_update` (lines 306-387): retry
the release API through the proxy; on success, first re-try the index lookup
(lines 321-341), then the release resolution; any failure inside the proxy
`try` (including a raised lookup) yields `None`. -/
def proxyStage (loads : String → Option Json) (s : PMState) (net : Net)
    (lfs : String → Option LocalPlugin) (code : String) (t : List Ev) :
    Option Json × PMState × List Ev :=
  match net (proxyUrlHead ++ repository_url) with
  | .ok data =>
      match get_plugin_info_from_index s net code with
      | (.raised, s2, t2) =>
          (none, s2, t ++ [Ev.req (proxyUrlHead ++ repository_url)] ++ t2)
      | (.found info, s2, t2) =>
          if info.truthy then
            (versionCheckIndexPath info (get_local_plugin_version lfs code), s2,
              t ++ [Ev.req (proxyUrlHead ++ repository_url)] ++ t2)
          else
            (releaseResolveAndCheck loads data code (get_local_plugin_version lfs code),
              s2, t ++ [Ev.req (proxyUrlHead ++ repository_url)] ++ t2)
      | (.notFound, s2, t2) =>
          (releaseResolveAndCheck loads data code (get_local_plugin_version lfs code),
            s2, t ++ [Ev.req (proxyUrlHead ++ repository_url)] ++ t2)
  | _ => (none, s, t ++ [Ev.req (proxyUrlHead ++ repository_url)])

/-- The release-API stage of `check_plugin_update` (lines 256-304 plus
handlers): GET the release metadata; a JSON decode error is not a
`URLError`, so it reaches the outer `except` and yields `None`; `HTTPError`
is a subclass of `URLError`, so both go to the proxy stage. -/
def releaseStage (loads : String → Option Json) (s : PMState) (net : Net)
    (lfs : String → Option LocalPlugin) (code : String) (t : List Ev) :
    Option Json × PMState × List Ev :=
  match net repository_url with
  | .ok data =>
      (releaseResolveAndCheck loads data code (get_local_plugin_version lfs code),
        s, t ++ [Ev.req repository_url])
  | .decodeErr => (none, s, t ++ [Ev.req repository_url])
  | .httpErr => proxyStage loads s net lfs code (t ++ [Ev.req repository_url])
  | .urlErr => proxyStage loads s net lfs code (t ++ [Ev.req repository_url])

/-- `PluginManager.check_plugin_update` (lines 219-390): index lookup first
(with Python truthiness at line 235); a found record is version-checked and
the function returns without consulting the release API; otherwise the
release-API stage runs; a raised lookup reaches the outer `except` and
yields `None`. -/
def check_plugin_update (loads : String → Option Json) (s : PMState)
    (net : Net) (lfs : String → Option LocalPlugin) (code : String) :
    Option Json × PMState × List Ev :=
  match get_plugin_info_from_index s net code with
  | (.raised, s1, t1) => (none, s1, t1)
  | (.found info, s1, t1) =>
      if info.truthy then
        (versionCheckIndexPath info (get_local_plugin_version lfs code), s1, t1)
      else releaseStage loads s1 net lfs code t1
  | (.notFound, s1, t1) => releaseStage loads s1 net lfs code t1

-- ---------------------------------------------------------------------------
-- Descriptor-shape lemmas
-- ---------------------------------------------------------------------------

theorem lookupKV_set_self (kvs : List (String × Json)) (k : String) (v : Json) :
    lookupKV (setKV kvs k v) k = some v := by
  induction kvs with
  | nil => simp [setKV, lookupKV]
  | cons kv rest ih =>
      rcases kv with ⟨k0, v0⟩
      by_cases h : k0 = k <;> simp [setKV, lookupKV, h, ih]

theorem lookupKV_set_ne (kvs : List (String × Json)) (k k' : String) (v : Json)
    (h : k' ≠ k) :
    lookupKV (setKV kvs k v) k' = lookupKV kvs k' := by
  have hk : ¬ k = k' := fun e => h (Eq.symm e)
  induction kvs with
  | nil => simp [setKV, lookupKV, hk]
  | cons kv rest ih =>
      rcases kv with ⟨k0, v0⟩
      by_cases h0 : k0 = k
      · subst h0
        simp [setKV, lookupKV, hk]
      · simp [setKV, lookupKV, h0, ih]

theorem jget_some_obj {p : Json} {k : String} {v : Json}
    (h : jget p k = some v) : ∃ kvs, p = .obj kvs := by
  cases p with
  | obj kvs => exact ⟨kvs, rfl⟩
  | null => simp [jget] at h
  | bool b => simp [jget] at h
  | num n => simp [jget] at h
  | str s => simp [jget] at h
  | arr xs => simp [jget] at h

theorem hasSchoolCode_jget {p : Json} {code : String}
    (h : hasSchoolCode p code = true) :
    jget p "school_code" = some (.str code) := by
  unfold hasSchoolCode at h
  cases hj : jget p "school_code" <;> rw [hj] at h
  · simp at h
  · case some v =>
      cases v <;> simp at h
      case str s => rw [h]

theorem jget_some_truthy {p : Json} {k : String} {v : Json}
    (h : jget p k = some v) : p.truthy = true := by
  obtain ⟨kvs, rfl⟩ := jget_some_obj h
  cases kvs with
  | nil => simp [jget, lookupKV] at h
  | cons kv rest => simp [Json.truthy]

/-- The shape every returned update descriptor is claimed to have, as far as
the code guarantees it: `remote_version`, `local_version` and `school_code`
keys are present. -/
def descOK (d : Json) : Prop :=
  (jget d "remote_version").isSome ∧ (jget d "local_version").isSome ∧
    (jget d "school_code").isSome

theorem vcip_descOK {info : Json} {code : String} {lv : String} {d : Json}
    (hsc : hasSchoolCode info code = true)
    (h : versionCheckIndexPath info lv = some d) : descOK d := by
  have hj := hasSchoolCode_jget hsc
  obtain ⟨kvs, rfl⟩ := jget_some_obj hj
  unfold versionCheckIndexPath at h
  split at h
  · injection h with h1
    subst h1
    simp only [jget] at hj
    refine ⟨?_, ?_, ?_⟩
    · simp only [jset, jget]
      rw [lookupKV_set_ne _ _ _ _ (by decide), lookupKV_set_self]
      simp
    · simp only [jset, jget]
      rw [lookupKV_set_self]
      simp
    · simp only [jset, jget]
      rw [lookupKV_set_ne _ _ _ _ (by decide),
        lookupKV_set_ne _ _ _ _ (by decide), hj]
      simp
  · simp at h

theorem vcr_descOK {data info : Json} {code lv : String} {d : Json}
    (hsc : hasSchoolCode info code = true)
    (h : versionCheckRelease data code lv info = some d) : descOK d := by
  have hj := hasSchoolCode_jget hsc
  obtain ⟨kvs, rfl⟩ := jget_some_obj hj
  unfold versionCheckRelease at h
  split at h
  · injection h with h1
    subst h1
    simp only [jget] at hj
    refine ⟨?_, ?_, ?_⟩
    · simp only [jset, jget]
      rw [lookupKV_set_ne _ _ _ _ (by decide), lookupKV_set_self]
      simp
    · simp only [jset, jget]
      rw [lookupKV_set_self]
      simp
    · simp only [jset, jget]
      rw [lookupKV_set_ne _ _ _ _ (by decide),
        lookupKV_set_ne _ _ _ _ (by decide),
        lookupKV_set_ne _ _ _ _ (by decide), hj]
      simp
  · simp at h

theorem addContributor_hSC {rd info i1 : Json} {code : String}
    (h : addContributor rd info = some i1)
    (hsc : hasSchoolCode info code = true) : hasSchoolCode i1 code = true := by
  have hj := hasSchoolCode_jget hsc
  obtain ⟨kvs, rfl⟩ := jget_some_obj hj
  simp only [addContributor] at h
  cases hl : lookupKV kvs "contributor" <;> rw [hl] at h
  · cases hal : getAuthorLogin rd <;> rw [hal] at h
    · simp at h
    · injection h with h1
      rw [← h1]
      unfold hasSchoolCode
      simp only [jset, jget]
      rw [lookupKV_set_ne _ _ _ _ (by decide)]
      simp only [jget] at hj
      rw [hj]
      simp
  · injection h with h1
    rw [← h1]
    exact hsc

theorem scanLoop_hSC {loads : String → Option Json} {lines : List String}
    {code : String} {todo : List (Nat × String)} {info : Json}
    (h : scanLoop loads lines code todo = some info) :
    hasSchoolCode info code = true := by
  induction todo with
  | nil => simp [scanLoop] at h
  | cons p rest ih =>
      rcases p with ⟨i, line⟩
      simp only [scanLoop] at h
      split at h
      · split at h
        · split at h
          · exact ih h
          · split at h
            · simp at h
            · split at h
              · next kvs =>
                  split at h
                  · next hcode =>
                      injection h with h1
                      rw [← h1]
                      exact hcode
                  · exact ih h
              · simp at h
        · exact ih h
      · exact ih h

theorem parse_hSC {loads : String → Option Json} {body : Json} {code : String}
    {info : Json} (h : parse_plugin_info loads body code = some info) :
    hasSchoolCode info code = true := by
  unfold parse_plugin_info at h
  split at h
  · exact scanLoop_hSC h
  · simp at h

theorem finishAsset1_hSC {code : String} {rd asset : Json} {version : String}
    {sha0 : Option String} {r : Json}
    (h : finishAsset1 code rd asset version sha0 = some r) :
    hasSchoolCode r code = true := by
  unfold finishAsset1 at h
  split at h
  · simp at h
  · injection h with h1
    rw [← h1]
    simp [hasSchoolCode, jget, lookupKV]

theorem buildAsset1_hSC {code : String} {rd asset : Json} {r : Json}
    (h : buildAsset1 code rd asset = some r) : hasSchoolCode r code = true := by
  unfold buildAsset1 at h
  split at h
  · split at h
    · exact finishAsset1_hSC h
    · exact finishAsset1_hSC h
    · simp at h
  · simp at h

theorem buildAsset2_hSC {code : String} {rd asset : Json} {r : Json}
    (h : buildAsset2 code rd asset = some r) : hasSchoolCode r code = true := by
  unfold buildAsset2 at h
  split at h
  · split at h
    · simp at h
    · injection h with h1
      rw [← h1]
      simp [hasSchoolCode, jget, lookupKV]
  · simp at h

theorem inferLoop1_hSC {code : String} {rd : Json} {xs : List Json} {r : Json}
    (h : inferLoop1 code rd xs = .ok (some r)) : hasSchoolCode r code = true := by
  induction xs with
  | nil => simp [inferLoop1] at h
  | cons a rest ih =>
      simp only [inferLoop1] at h
      split at h
      · split at h
        · split at h
          · split at h
            · next hb =>
                injection h with h1
                injection h1 with h2
                rw [← h2]
                exact buildAsset1_hSC hb
            · simp at h
          · exact ih h
        · exact ih h
      · simp at h

theorem inferLoop2_hSC {code : String} {rd : Json} {xs : List Json} {r : Json}
    (h : inferLoop2 code rd xs = .ok (some r)) : hasSchoolCode r code = true := by
  induction xs with
  | nil => simp [inferLoop2] at h
  | cons a rest ih =>
      simp only [inferLoop2] at h
      split at h
      · split at h
        · split at h
          · split at h
            · next hb =>
                injection h with h1
                injection h1 with h2
                rw [← h2]
                exact buildAsset2_hSC hb
            · simp at h
          · exact ih h
        · simp at h
      · simp at h

theorem infer_hSC {assets : Json} {code : String} {rd : Json} {r : Json}
    (h : infer_plugin_info_from_assets assets code rd = some r) :
    hasSchoolCode r code = true := by
  unfold infer_plugin_info_from_assets at h
  split at h
  · next xs =>
      split at h
      · simp at h
      · next hl1 =>
          injection h with h1
          rw [← h1]
          exact inferLoop1_hSC hl1
      · split at h
        · simp at h
        · next hl2 => exact inferLoop2_hSC (by rw [hl2, h])
  · simp at h

theorem afterInfer_descOK {data : Json} {code lv : String} {d : Json}
    (h : afterInfer data code lv = some d) : descOK d := by
  unfold afterInfer at h
  split at h
  · simp at h
  · next info hinf =>
      split at h
      · split at h
        · simp at h
        · next info1 hadd =>
            split at h
            · exact vcr_descOK (addContributor_hSC hadd (infer_hSC hinf)) h
            · simp at h
      · simp at h

theorem rrc_descOK {loads : String → Option Json} {data : Json}
    {code lv : String} {d : Json}
    (h : releaseResolveAndCheck loads data code lv = some d) : descOK d := by
  unfold releaseResolveAndCheck at h
  split at h
  · split at h
    · next info hp =>
        split at h
        · split at h
          · simp at h
          · next info1 hadd =>
              split at h
              · exact vcr_descOK (addContributor_hSC hadd (parse_hSC hp)) h
              · exact afterInfer_descOK h
        · exact afterInfer_descOK h
    · exact afterInfer_descOK h
  · simp at h

theorem scanPlugins_found {code : String} {ps : List Json} {info : Json}
    (h : scanPlugins code ps = .found info) :
    hasSchoolCode info code = true ∧ info.truthy = true := by
  induction ps with
  | nil => simp [scanPlugins] at h
  | cons p rest ih =>
      cases p <;> simp only [scanPlugins] at h <;> try exact ih h
      case obj kvs =>
        split at h
        · next hcode =>
            injection h with h1
            rw [← h1]
            exact ⟨hcode, jget_some_truthy (hasSchoolCode_jget hcode)⟩
        · exact ih h

theorem lookup_found {s : PMState} {net : Net} {code : String} {info : Json}
    (h : (get_plugin_info_from_index s net code).1 = .found info) :
    hasSchoolCode info code = true ∧ info.truthy = true := by
  unfold get_plugin_info_from_index at h
  rcases hf : fetchPluginsIndexT s net with ⟨idx?, s1, t⟩
  rw [hf] at h
  cases idx? with
  | none => simp at h
  | some idx =>
      dsimp only at h
      split at h
      · simp at h
      · cases idx with
        | obj kvs =>
            dsimp only at h
            cases hp : (jget (Json.obj kvs) "plugins").getD (.arr []) <;>
                rw [hp] at h
            case arr ps =>
                dsimp only at h
                exact scanPlugins_found h
            all_goals simp at h
        | null => simp at h
        | bool b => simp at h
        | num n => simp at h
        | str st => simp at h
        | arr xs => simp at h

theorem proxyStage_descOK {loads : String → Option Json} {s : PMState}
    {net : Net} {lfs : String → Option LocalPlugin} {code : String}
    {t : List Ev} {d : Json}
    (h : (proxyStage loads s net lfs code t).1 = some d) : descOK d := by
  unfold proxyStage at h
  cases hn : net (proxyUrlHead ++ repository_url) <;> rw [hn] at h <;>
    try simp at h
  case ok data =>
      rcases hg : get_plugin_info_from_index s net code with ⟨lr, s2, t2⟩
      rw [hg] at h
      cases lr with
      | raised => simp at h
      | notFound =>
          dsimp only at h
          exact rrc_descOK h
      | found info =>
          dsimp only at h
          split at h
          · have hfound : (get_plugin_info_from_index s net code).1 = .found info := by
              rw [hg]
            exact vcip_descOK (lookup_found hfound).1 h
          · exact rrc_descOK h

theorem releaseStage_descOK {loads : String → Option Json} {s : PMState}
    {net : Net} {lfs : String → Option LocalPlugin} {code : String}
    {t : List Ev} {d : Json}
    (h : (releaseStage loads s net lfs code t).1 = some d) : descOK d := by
  unfold releaseStage at h
  cases hn : net repository_url <;> rw [hn] at h <;> dsimp only at h
  case ok data => exact rrc_descOK h
  case decodeErr => simp at h
  case httpErr => exact proxyStage_descOK h
  case urlErr => exact proxyStage_descOK h

/-- Claim C6, amended: every non-null result of `check_plugin_update`
carries `remote_version`, `local_version` and the `school_code` of its
source; `download_url`, `sha256` and `contributor` are present only when the
resolution source supplies them (the release-API path always sets a
`download_url` key, possibly null, while the index path returns the index
record with only `remote_version` and `local_version` added). -/
theorem c6_descriptor_keys_amended (loads : String → Option Json)
    (s : PMState) (net : Net) (lfs : String → Option LocalPlugin)
    (code : String) (d : Json)
    (h : (check_plugin_update loads s net lfs code).1 = some d) : descOK d := by
  unfold check_plugin_update at h
  rcases hg : get_plugin_info_from_index s net code with ⟨lr, s1, t1⟩
  rw [hg] at h
  cases lr with
  | raised => simp at h
  | notFound =>
      dsimp only at h
      exact releaseStage_descOK h
  | found info =>
      dsimp only at h
      split at h
      · have hfound : (get_plugin_info_from_index s net code).1 = .found info := by
          rw [hg]
        exact vcip_descOK (lookup_found hfound).1 h
      · exact releaseStage_descOK h

/-- Claim C1: for every school_code resolved through the plugin index,
`check_plugin_update` returns a non-null descriptor exactly when the
comparator judges the remote version strictly greater than the local one,
and any returned descriptor carries that `remote_version` and
`local_version`. -/
theorem c1_check_update_index_iff (loads : String → Option Json)
    (s : PMState) (net : Net) (lfs : String → Option LocalPlugin)
    (code : String) (info : Json)
    (h : (get_plugin_info_from_index s net code).1 = .found info) :
    (((check_plugin_update loads s net lfs code).1 ≠ none) ↔
      0 < compareVersionJ ((jget info "plugin_version").getD (.str "0.0.0"))
        (.str (get_local_plugin_version lfs code))) ∧
    (∀ d, (check_plugin_update loads s net lfs code).1 = some d →
      jget d "remote_version" =
        some ((jget info "plugin_version").getD (.str "0.0.0")) ∧
      jget d "local_version" =
        some (.str (get_local_plugin_version lfs code))) := by
  have hsc := (lookup_found h).1
  have htr := (lookup_found h).2
  have hj := hasSchoolCode_jget hsc
  obtain ⟨kvs, hkvs⟩ := jget_some_obj hj
  rcases hg : get_plugin_info_from_index s net code with ⟨lr, s1, t1⟩
  rw [hg] at h
  dsimp only at h
  subst h
  have hred : (check_plugin_update loads s net lfs code).1 =
      versionCheckIndexPath info (get_local_plugin_version lfs code) := by
    unfold check_plugin_update
    rw [hg]
    dsimp only
    rw [if_pos htr]
  rw [hred]
  unfold versionCheckIndexPath
  constructor
  · by_cases hc : 0 < compareVersionJ
        ((jget info "plugin_version").getD (.str "0.0.0"))
        (.str (get_local_plugin_version lfs code))
    · simp [hc]
    · simp [hc]
  · intro d hd
    split at hd
    · injection hd with hd1
      subst hkvs
      rw [← hd1]
      constructor
      · simp only [jset, jget]
        rw [lookupKV_set_ne _ _ _ _ (by decide), lookupKV_set_self]
      · simp only [jset, jget]
        rw [lookupKV_set_self]
    · simp at hd

/-- A `json.loads` stand-in that always raises. -/
def c1loads : String → Option Json := fun _ => none

/-- Local plugin state: school 10546 installed with `version.txt` = `"1"`. -/
def c1lfs1 : String → Option LocalPlugin := fun c =>
  if c = "10546" then some ⟨some "1", none⟩ else none

/-- Local plugin state: school 10546 installed with `version.txt` = `"2"`. -/
def c1lfs2 : String → Option LocalPlugin := fun c =>
  if c = "10546" then some ⟨some "2", none⟩ else none

/-- The descriptor produced for the spec's resolver example. -/
def c1desc : Json := .obj [("school_code", .str "10546"),
  ("plugin_version", .str "2"), ("remote_version", .str "2"),
  ("local_version", .str "1")]

/-- Witness for C1 at the spec's example: with an index record
`{school_code: "10546", plugin_version: "2"}` and local version `"1"` the
check returns a descriptor with `remote_version = "2"`; with local version
`"2"` it returns null. -/
theorem c1_witness :
    ((((check_plugin_update c1loads c7wrapped cNet0 c1lfs1 "10546").1 ≠ none) ↔
      0 < compareVersionJ ((jget c7record "plugin_version").getD (.str "0.0.0"))
        (.str (get_local_plugin_version c1lfs1 "10546"))) ∧
     (∀ d, (check_plugin_update c1loads c7wrapped cNet0 c1lfs1 "10546").1 = some d →
       jget d "remote_version" =
         some ((jget c7record "plugin_version").getD (.str "0.0.0")) ∧
       jget d "local_version" =
         some (.str (get_local_plugin_version c1lfs1 "10546")))) ∧
    (check_plugin_update c1loads c7wrapped cNet0 c1lfs1 "10546").1 = some c1desc ∧
    (check_plugin_update c1loads c7wrapped cNet0 c1lfs2 "10546").1 = none :=
  ⟨c1_check_update_index_iff c1loads c7wrapped cNet0 c1lfs1 "10546" c7record rfl,
   rfl, rfl⟩

/-- Local plugin state: nothing installed (local version `"0.0.0"`). -/
def c6lfs : String → Option LocalPlugin := fun _ => none

/-- The descriptor the index path produces for a record that carries no
`download_url`. -/
def c6desc : Json := .obj [("school_code", .str "10546"),
  ("plugin_version", .str "2"), ("remote_version", .str "2"),
  ("local_version", .str "0.0.0")]

/-- Claim C6, as stated, is false: a non-null result resolved via the plugin
index carries only the index record's fields plus `remote_version` and
`local_version`; with an index record lacking `download_url`, the returned
descriptor has no `download_url` key. -/
theorem c6_counterexample :
    (check_plugin_update c1loads c7wrapped cNet0 c6lfs "10546").1 = some c6desc ∧
    jget c6desc "download_url" = none := by
  constructor <;> rfl

/-- Witness for C6's amended theorem at the concrete index-path run. -/
theorem c6_witness : descOK c6desc :=
  c6_descriptor_keys_amended c1loads c7wrapped cNet0 c6lfs "10546" c6desc rfl

-- ---------------------------------------------------------------------------
-- Claim C9: the looser release-body patterns are unreachable
-- ---------------------------------------------------------------------------

/-- Index of the first occurrence of `needle` in `hay`. -/
def findSub (hay needle : List Char) : Option Nat :=
  (List.range (hay.length + 1)).find?
    (fun i => needle.isPrefixOf (hay.drop i))

/-- One attempted match of `v(\d+\.\d+\.\d+)` at the head of `cs`,
returning the captured version and the remainder. -/
def vMatchAt (cs : List Char) : Option (String × List Char) :=
  match cs with
  | 'v' :: rest =>
      if (rest.takeWhile Char.isDigit).isEmpty then none
      else
        match rest.drop (rest.takeWhile Char.isDigit).length with
        | '.' :: r2 =>
            if (r2.takeWhile Char.isDigit).isEmpty then none
            else
              match r2.drop (r2.takeWhile Char.isDigit).length with
              | '.' :: r3 =>
                  if (r3.takeWhile Char.isDigit).isEmpty then none
                  else some (String.mk (rest.takeWhile Char.isDigit ++ ['.'] ++
                      r2.takeWhile Char.isDigit ++ ['.'] ++
                      r3.takeWhile Char.isDigit),
                    r3.drop (r3.takeWhile Char.isDigit).length)
              | _ => none
        | _ => none
  | _ => none

def firstVMatch : List Char → Option (String × List Char)
  | [] => none
  | c :: rest =>
      match vMatchAt (c :: rest) with
      | some r => some r
      | none => firstVMatch rest

def first64After (cs : List Char) : Option String :=
  (findall64Go cs.length cs).head?

/-- The looser release-body pattern as the spec words it (section 4.4 b):
after the school_code token, a `vX.Y.Z` version and then a 64-hex-digit
checksum; yields the `(version, sha256)` pair the claim expects in the
`{school_code, plugin_version, sha256}` result. -/
def specLooserMatch (body code : String) : Option (String × String) :=
  match findSub body.toList code.toList with
  | none => none
  | some i =>
      match firstVMatch (body.toList.drop (i + code.toList.length)) with
      | none => none
      | some (ver, rest) =>
          match first64After rest with
          | none => none
          | some hx => some (ver, hx)

/-- A release body that only the looser pattern matches: no embedded JSON
object, no labeled `version:`/`sha256:` pair. -/
def c9body : String :=
  "Release plugin for 10546 v1.2.3 sha256 aaaaaaaaaaaaaaaaaaaaaaaaaaaaaaaaaaaaaaaaaaaaaaaaaaaaaaaaaaaaaaaa"

/-- Claim C9 is right and the code is wrong (code_bug): this body matches
the looser "code ... vX.Y.Z ... 64-hex-digit" pattern the spec describes,
but `_parse_plugin_info` returns `None` on it for every possible
`json.loads`, because line 438 builds the strict pattern as
`rf'...', re.DOTALL` - a tuple - so `re.search` raises `TypeError` before
the looser patterns of lines 450-464 are ever tried, and the `except`
swallows the exception. -/
theorem c9_parse_returns_none :
    specLooserMatch c9body "10546" =
      some ("1.2.3",
        "aaaaaaaaaaaaaaaaaaaaaaaaaaaaaaaaaaaaaaaaaaaaaaaaaaaaaaaaaaaaaaaa") ∧
    (∀ loads, parse_plugin_info loads (.str c9body) "10546" = none) :=
  ⟨rfl, fun _ => rfl⟩

-- ---------------------------------------------------------------------------
-- Installer (`PluginManager.download_and_install_plugin`, lines 1117-1186)
-- ---------------------------------------------------------------------------

/-- Contents of one plugin directory, as filename/content pairs. -/
structure PDir where
  files : List (String × String)

/-- The installer-visible filesystem for one school_code: the plugin
directory (if present) and the timestamped backup directories. -/
structure InstallFS where
  pluginDir : Option PDir
  backups : List (Nat × PDir)

/-- Modelled from the spec: `core.updater.download_file` is not under src/;
section 6 describes it as "a generic authenticated-download utility that
accepts (url, destination, expected_checksum) and performs the
checksum-verified transfer", and section 4.5 step 2 requires that when a
checksum is provided, any digest mismatch is a hard failure.  `hash` is the
SHA-256 digest function, `net url` the delivered bytes (`none` = transfer
failure); a falsy expected checksum (Python `None` or `""`) skips
verification. -/
def download_file (hash : String → String) (net : String → Option String)
    (url : String) (expected : Json) : Bool :=
  match net url with
  | none => false
  | some bytes =>
      if expected.truthy then
        match expected with
        | .str s => hash bytes = s
        | _ => false
      else true

/-- `PluginManager.download_and_install_plugin` (lines 1117-1186): require a
truthy `download_url` (line 1133); download with checksum verification and
fail before touching anything if it fails (line 1153); only then back up any
existing plugin directory (lines 1165-1168), extract the ZIP (line 1172) and
write `version.txt` (lines 1177-1178).  A non-string `download_url` makes
the download step raise, and a non-string `plugin_version` makes
`write_text` raise after extraction; both are caught and yield `False`. -/
def download_and_install_plugin (hash : String → String)
    (net : String → Option String) (unzip : String → List (String × String))
    (ts : Nat) (fs : InstallFS) (_code : String) (info : Json) :
    Bool × InstallFS :=
  if ¬ ((jget info "download_url").getD Json.null).truthy then (false, fs)
  else
    match (jget info "download_url").getD Json.null with
    | .str url =>
        if download_file hash net url ((jget info "sha256").getD Json.null) then
          match net url with
          | some bytes =>
              match fs.pluginDir with
              | some d =>
                  match (jget info "plugin_version").getD (.str "unknown") with
                  | .str v =>
                      (true, ⟨some ⟨unzip bytes ++ [("version.txt", v)]⟩,
                        fs.backups ++ [(ts, d)]⟩)
                  | _ =>
                      (false, ⟨some ⟨unzip bytes⟩, fs.backups ++ [(ts, d)]⟩)
              | none =>
                  match (jget info "plugin_version").getD (.str "unknown") with
                  | .str v =>
                      (true, ⟨some ⟨unzip bytes ++ [("version.txt", v)]⟩,
                        fs.backups⟩)
                  | _ => (false, ⟨some ⟨unzip bytes⟩, fs.backups⟩)
          | none => (false, fs)
        else (false, fs)
    | _ => (false, fs)

/-- Claim C5: if the descriptor's `download_url` is absent/empty (falsy), or
the checksum-verified download step reports failure (in particular on a
SHA-256 mismatch), the installer returns false and the filesystem is
untouched: no backup is created, nothing is extracted, `version.txt` is not
written. -/
theorem c5_install_no_touch (hash : String → String)
    (net : String → Option String) (unzip : String → List (String × String))
    (ts : Nat) (fs : InstallFS) (code : String) (info : Json)
    (h : ¬ ((jget info "download_url").getD Json.null).truthy = true ∨
      (∃ url, (jget info "download_url").getD Json.null = .str url ∧
        download_file hash net url ((jget info "sha256").getD Json.null) = false)) :
    download_and_install_plugin hash net unzip ts fs code info = (false, fs) := by
  unfold download_and_install_plugin
  rcases h with h | ⟨url, hu, hd⟩
  · rw [if_pos h]
  · by_cases ht : ((jget info "download_url").getD Json.null).truthy = true
    · rw [if_neg (by simp [ht])]
      rw [hu]
      dsimp only
      rw [hd]
      simp
    · rw [if_pos ht]

/-- A network delivering fixed bytes for every URL. -/
def c5net : String → Option String := fun _ => some "ZIPBYTES"

/-- A digest function whose output never matches the expected checksum. -/
def c5hash : String → String := fun _ => "deadbeef"

def c5unzip : String → List (String × String) := fun _ => [("__init__.py", "x")]

/-- A pre-existing plugin directory that must stay untouched. -/
def c5fs : InstallFS := ⟨some ⟨[("__init__.py", "old")]⟩, []⟩

/-- A descriptor whose sha256 does not match the downloaded bytes. -/
def c5info : Json := .obj [("school_code", .str "10546"),
  ("download_url", .str "https://example.com/p.zip"), ("sha256", .str "0000")]

/-- Witness for C5 at a concrete checksum mismatch. -/
theorem c5_witness :
    download_and_install_plugin c5hash c5net c5unzip 1700000000 c5fs "10546"
      c5info = (false, c5fs) :=
  c5_install_no_touch c5hash c5net c5unzip 1700000000 c5fs "10546" c5info
    (Or.inr ⟨"https://example.com/p.zip", rfl, rfl⟩)

-- ---------------------------------------------------------------------------
-- Plugin loader (`PluginManager.load_plugin`, lines 1190-1233)
-- ---------------------------------------------------------------------------

/-- `str(self.plugins_dir / school_code)`, the entry temporarily added to
`sys.path`. -/
def pluginDirStr (code : String) : String := "core/plugins/" ++ code

/-- The `sys.path` after the conditional insert of lines 1210-1211. -/
def loadPluginPath1 (sysPath : List String) (code : String) : List String :=
  if pluginDirStr code ∈ sysPath then sysPath
  else pluginDirStr code :: sysPath

/-- `PluginManager.load_plugin` (lines 1190-1233) as a transformer of
`sys.path`: `entryExists` is whether the plugin's `__init__.py` exists,
`execRes` the outcome of `spec.loader.exec_module` (`none` = it raised).
There is no `try/finally`: when execution raises, control jumps to the
`except` at line 1231 and the removal of lines 1221-1222 is skipped, so the
inserted entry stays; on success the removal erases the first occurrence,
even one that predates the call. -/
def load_plugin (sysPath : List String) (entryExists : Bool)
    (execRes : Option String) (code : String) : Option String × List String :=
  if entryExists then
    match execRes with
    | some m =>
        (some m,
          if pluginDirStr code ∈ loadPluginPath1 sysPath code then
            (loadPluginPath1 sysPath code).erase (pluginDirStr code)
          else loadPluginPath1 sysPath code)
    | none => (none, loadPluginPath1 sysPath code)
  else (none, sysPath)

/-- Claim C10, as stated, is false: when executing the plugin module raises,
the temporarily inserted `sys.path` entry is not removed (there is no
`finally`), so the search path after the call differs from the one
before. -/
theorem c10_counterexample :
    (load_plugin [] true none "10546").2 = [pluginDirStr "10546"] ∧
    pluginDirStr "10546" ∉ ([] : List String) := by
  constructor
  · rfl
  · simp

/-- Claim C10, amended: `sys.path` is restored when the load succeeds with
the plugin directory not already on the path, and left untouched when the
entry file is absent; but when module execution raises, the temporary entry
remains prepended (and a successful load would remove a pre-existing
occurrence of the directory). -/
theorem c10_syspath_amended (sysPath : List String) (code : String)
    (m : String) (execRes : Option String)
    (h : pluginDirStr code ∉ sysPath) :
    load_plugin sysPath true (some m) code = (some m, sysPath) ∧
    load_plugin sysPath false execRes code = (none, sysPath) ∧
    load_plugin sysPath true none code = (none, pluginDirStr code :: sysPath) := by
  refine ⟨?_, ?_, ?_⟩
  · simp [load_plugin, loadPluginPath1, h]
  · simp [load_plugin]
  · simp [load_plugin, loadPluginPath1, h]

/-- Witness for C10's amended theorem at a concrete path and school code. -/
theorem c10_witness :
    load_plugin ["site-packages"] true (some "module") "10546" =
      (some "module", ["site-packages"]) ∧
    load_plugin ["site-packages"] false none "10546" =
      (none, ["site-packages"]) ∧
    load_plugin ["site-packages"] true none "10546" =
      (none, pluginDirStr "10546" :: ["site-packages"]) :=
  c10_syspath_amended ["site-packages"] "10546" "module" none (by decide)
